import Mathlib

/-!
Shallow embedding of the mock HTTP server core (`src/server.rs`): the
request-matching predicate, the mock-selection policy, the hit-count
bookkeeping, the response writer (fixed and chunked bodies), and the
server-pool slot selection.  External collaborator types (`Request`
parsing, matcher predicates, the `Chunked` body writer) are modelled at
their interface, as booleans/functions or, where their behaviour is fixed
by the spec, by explicit definitions marked `Modelled from the spec`.

Bytes on the wire are `List Nat` (each entry one octet); strings are
serialized through an explicit UTF-8 encoder so that byte lengths agree
with Rust's `str::as_bytes`.
-/

/-- UTF-8 encoding of a single character, one `Nat` per octet.  Mirrors the
standard UTF-8 scheme used by Rust's `str::as_bytes`. -/
def utf8Bytes (c : Char) : List Nat :=
  let n := c.toNat
  if n < 0x80 then [n]
  else if n < 0x800 then
    [0xC0 ||| (n >>> 6), 0x80 ||| (n &&& 0x3F)]
  else if n < 0x10000 then
    [0xE0 ||| (n >>> 12), 0x80 ||| ((n >>> 6) &&& 0x3F), 0x80 ||| (n &&& 0x3F)]
  else
    [0xF0 ||| (n >>> 18), 0x80 ||| ((n >>> 12) &&& 0x3F),
     0x80 ||| ((n >>> 6) &&& 0x3F), 0x80 ||| (n &&& 0x3F)]

/-- The UTF-8 bytes of a string (Rust `str::as_bytes`). -/
def strBytes (s : String) : List Nat :=
  s.data.flatMap utf8Bytes

/-- Matcher interface (external collaborator type, out of scope of the
core): a matcher is characterized by the three predicates the server
calls on it: `matches_value` on a string, `matches_values` on the set of
values found under a header name, and `matches_binary_value` on raw
bytes. -/
structure Matcher where
  matches_value : String → Bool
  matches_values : List String → Bool
  matches_binary_value : List Nat → Bool

/-- Response body (`Body` from `response.rs`, not under `src/`).
`Bytes` is a fixed byte buffer.  `Fn` is the producer-callback variant;
Modelled from the spec: the callback is represented by the sequence of
chunk writes it performs on the `Chunked` writer. -/
inductive Body where
  | Bytes (bytes : List Nat)
  | Fn (chunks : List (List Nat))

/-- A mock's canned response: status (displayed into the status line),
header list, and body. -/
structure Response where
  status : String
  headers : List (String × String)
  body : Body

/-- The `Mock` data model (fields as consumed by `src/server.rs`). -/
structure Mock where
  method : String
  path : Matcher
  headers : List (String × Matcher)
  body : Matcher
  response : Response
  hits : Nat
  expected_hits_at_least : Option Nat
  expected_hits_at_most : Option Nat

/-- A parsed request (external collaborator type): method, path, header
multimap (a name may repeat), raw body bytes, HTTP version pair. -/
structure Request where
  method : String
  path : String
  headers : List (String × String)
  body : List Nat
  version : Nat × Nat

instance : Inhabited Mock :=
  ⟨{ method := ""
     path := ⟨fun _ => false, fun _ => false, fun _ => false⟩
     headers := []
     body := ⟨fun _ => false, fun _ => false, fun _ => false⟩
     response := { status := "", headers := [], body := Body.Bytes [] }
     hits := 0
     expected_hits_at_least := none
     expected_hits_at_most := none }⟩

/-- Modelled from the spec: `Request::find_header_values` (the `Request`
type is not under `src/`) returns the set of values found under a header
name in the request, in order. -/
def Request.find_header_values (r : Request) (field : String) : List String :=
  (r.headers.filter (fun kv => kv.fst == field)).map (fun kv => kv.snd)

/-- Modelled from the spec: `Request::is_head` (not under `src/`) tells
whether the request method is HEAD. -/
def Request.is_head (r : Request) : Bool :=
  r.method == "HEAD"

/-- Embeds `Mock::method_matches` (`src/server.rs` lines 13-15): exact string
equality of methods. -/
def Mock.method_matches (m : Mock) (r : Request) : Bool :=
  m.method == r.method

/-- Embeds `Mock::path_matches` (`src/server.rs` lines 17-19). -/
def Mock.path_matches (m : Mock) (r : Request) : Bool :=
  m.path.matches_value r.path

/-- Embeds `Mock::headers_match` (`src/server.rs` lines 21-25): every registered
(name, matcher) pair must accept the value set found under that name. -/
def Mock.headers_match (m : Mock) (r : Request) : Bool :=
  m.headers.all (fun fe => fe.snd.matches_values (r.find_header_values fe.fst))

/-- Embeds `Mock::body_matches` (`src/server.rs` lines 27-32).  `lossy` stands
for `String::from_utf8_lossy` (external); the matcher may accept the
lossily decoded text or the raw bytes. -/
def Mock.body_matches (lossy : List Nat → String) (m : Mock) (r : Request) : Bool :=
  m.body.matches_value (lossy r.body) || m.body.matches_binary_value r.body

/-- Embeds `Mock::is_missing_hits` (`src/server.rs` lines 35-42). -/
def Mock.is_missing_hits (m : Mock) : Bool :=
  match m.expected_hits_at_least, m.expected_hits_at_most with
  | some _at_least, some at_most => decide (m.hits < at_most)
  | some at_least, none => decide (m.hits < at_least)
  | none, some at_most => decide (m.hits < at_most)
  | none, none => decide (m.hits < 1)

/-- The `PartialEq<Request> for &mut Mock` impl (`src/server.rs` lines
45-52): a mock matches a request iff method, path, headers and body all
match. -/
def Mock.eq (lossy : List Nat → String) (m : Mock) (r : Request) : Bool :=
  m.method_matches r && m.path_matches r && m.headers_match r && m.body_matches lossy r

/-- The server state visible to `handle_request`: mock list (registration
order) and the unmatched-request log. -/
structure Server where
  mocks : List Mock
  unmatched_requests : List Request

/-- Indices (in registration order) of the mocks matching a request:
the `filter` in `handle_request` (`src/server.rs` lines 175-179), with
mutable references modelled as indices into the mock list. -/
def matching_idxs (lossy : List Nat → String) (mocks : List Mock) (r : Request) : List Nat :=
  (List.range mocks.length).filter (fun i => Mock.eq lossy (mocks.getD i default) r)

/-- The mock selected by `handle_request` (`src/server.rs` lines 181-186),
as an index: the first matching mock that is missing hits, else the last
matching mock. -/
def selected_idx (lossy : List Nat → String) (mocks : List Mock) (r : Request) : Option Nat :=
  match (matching_idxs lossy mocks r).find?
      (fun i => (mocks.getD i default).is_missing_hits) with
  | some i => some i
  | none => (matching_idxs lossy mocks r).getLast?

/-- Hexadecimal rendering of a length (Rust lowercase-hex formatting). -/
def hexStr (n : Nat) : String :=
  ⟨Nat.toDigits 16 n⟩

/-- Modelled from the spec: one chunk write through the `Chunked` writer
(`response.rs`, not under `src/`) is framed as
`<hex-length>\r\n<data>\r\n`. -/
def Chunked.frame (chunk : List Nat) : List Nat :=
  strBytes (hexStr chunk.length) ++ strBytes "\r\n" ++ chunk ++ strBytes "\r\n"

/-- Modelled from the spec: the bytes a producer callback puts on the
wire: each chunk framed, then `Chunked::finish` emits the terminating
zero-length chunk `0\r\n\r\n`. -/
def Chunked.encode (chunks : List (List Nat)) : List Nat :=
  (chunks.map Chunked.frame).flatten ++ strBytes "0\r\n\r\n"

/-- The status line `HTTP/<major>.<minor> <status>\r\n` built by
`respond_bytes` (`src/server.rs` line 220). -/
def status_line (version : Nat × Nat) (status : String) : String :=
  "HTTP/" ++ toString version.fst ++ "." ++ toString version.snd ++ " " ++ status ++ "\r\n"

/-- The serialized header lines, in order (`src/server.rs` lines 224-229). -/
def header_lines (headers : List (String × String)) : List Nat :=
  (headers.map (fun kv =>
    strBytes kv.fst ++ strBytes ": " ++ strBytes kv.snd ++ strBytes "\r\n")).flatten

/-- Embeds `respond_bytes` (`src/server.rs` lines 213-259): all bytes written to
the stream for one response.  A `content-length` header is synthesized
for a fixed buffer only when the supplied header list holds no key that
equals `content-length` exactly; the `Fn` variant gets
`transfer-encoding: chunked` and its chunk-framed body. -/
def respond_bytes (version : Nat × Nat) (status : String)
    (headers : Option (List (String × String))) (body : Option Body) : List Nat :=
  let response := strBytes (status_line version status)
  let response := match headers with
    | some hs => response ++ header_lines hs
    | none => response
  let has_content_length_header := match headers with
    | some hs => hs.any (fun kv => kv.fst == "content-length")
    | none => false
  let response := match body with
    | some (Body.Bytes bytes) =>
        if has_content_length_header then response
        else response ++ strBytes ("content-length: " ++ toString bytes.length ++ "\r\n")
    | some (Body.Fn _) => response ++ strBytes "transfer-encoding: chunked\r\n"
    | none => response
  let response := response ++ strBytes "\r\n"
  match body with
  | some (Body.Bytes bytes) => response ++ bytes
  | some (Body.Fn chunks) => response ++ Chunked.encode chunks
  | none => response

/-- Embeds `respond` (`src/server.rs` lines 200-211): string bodies are sent as
their UTF-8 bytes. -/
def respond (version : Nat × Nat) (status : String)
    (headers : Option (List (String × String))) (body : Option String) : List Nat :=
  respond_bytes version status headers (body.map (fun s => Body.Bytes (strBytes s)))

/-- Embeds `respond_with_mock` (`src/server.rs` lines 261-277): the mock's
status, headers and body, with the body skipped entirely for HEAD. -/
def respond_with_mock (version : Nat × Nat) (mock : Mock) (skip_body : Bool) : List Nat :=
  respond_bytes version mock.response.status (some mock.response.headers)
    (if skip_body then none else some mock.response.body)

/-- Embeds `respond_with_mock_not_found` (`src/server.rs` lines 279-287). -/
def respond_with_mock_not_found (version : Nat × Nat) : List Nat :=
  respond version "501 Mock Not Found" (some [("content-length", "0")]) none

/-- Embeds `respond_with_error` (`src/server.rs` lines 289-291). -/
def respond_with_error (version : Nat × Nat) (message : String) : List Nat :=
  respond version "422 Mock Error" none (some message)

/-- Embeds `handle_request` (`src/server.rs` lines 170-198) as a state
transition: the new server state and the bytes written to the client.
On a match the selected mock's hit counter is incremented before the
response is produced; otherwise the request is appended to the
unmatched-request log and the fixed 501 response is sent. -/
def handle_request (lossy : List Nat → String) (s : Server) (r : Request) :
    Server × List Nat :=
  match selected_idx lossy s.mocks r with
  | some i =>
      let m := s.mocks.getD i default
      let m' := { m with hits := m.hits + 1 }
      ({ s with mocks := s.mocks.set i m' },
       respond_with_mock r.version m' r.is_head)
  | none =>
      ({ s with unmatched_requests := s.unmatched_requests ++ [r] },
       respond_with_mock_not_found r.version)

/-- The parse-failure path of the accept loop (`src/server.rs` lines
97-105): the diagnostic message, or the fixed fallback when none, is sent
through `respond_with_error`. -/
def handle_parse_failure (version : Nat × Nat) (err : Option String) : List Nat :=
  respond_with_error version
    (match err with
     | some e => e
     | none => "Could not parse the request.")

/-- Embeds `ServerPool::find_server` (`src/server.rs` lines 132-138), with each
slot's lock abstracted to its availability at the moment of the scan
(`true` iff `try_lock` succeeds): the index of the slot whose guard is
returned.  The first available slot wins; when none is available the
code blocks on slot 0 and returns it. -/
def find_server (avail : List Bool) : Nat :=
  match (List.range avail.length).find? (fun i => avail.getD i false) with
  | some i => i
  | none => 0

/-! ## Helper lemmas -/

theorem strBytes_append (a b : String) : strBytes (a ++ b) = strBytes a ++ strBytes b := by
  simp [strBytes, String.data_append]

theorem find?_eq_get_of_first {α : Type} (p : α → Bool) (l : List α) (k : Nat)
    (hk : k < l.length) (hpk : p (l.get ⟨k, hk⟩) = true)
    (hbefore : ∀ j (hj : j < k), p (l.get ⟨j, Nat.lt_trans hj hk⟩) = false) :
    l.find? p = some (l.get ⟨k, hk⟩) := by
  induction l generalizing k with
  | nil => exact absurd hk (Nat.not_lt_zero k)
  | cons a t ih =>
    cases k with
    | zero =>
      simp only [List.get] at hpk
      simp [List.find?, hpk]
    | succ k' =>
      have ha : p a = false := hbefore 0 (Nat.succ_pos k')
      simp only [List.find?, ha]
      exact ih k' (Nat.lt_of_succ_lt_succ hk) hpk
        (fun j hj => hbefore (j + 1) (Nat.succ_lt_succ hj))

/-! ## Claims -/

/-- Concrete mock used to witness the is-missing-hits claim: both bounds
set, hits already beyond the ceiling. -/
def wMockBoth : Mock :=
  { (default : Mock) with
      hits := 3
      expected_hits_at_least := some 5
      expected_hits_at_most := some 2 }

/-- C2: `is_missing_hits` holds exactly when: both bounds set and
`hits < at_most`; only `at_least` set and `hits < at_least`; only
`at_most` set and `hits < at_most`; neither set and `hits < 1`.  When
both bounds are set, the lower bound plays no role. -/
theorem is_missing_hits_spec (m : Mock) :
    (∀ a b, m.expected_hits_at_least = some a → m.expected_hits_at_most = some b →
      (m.is_missing_hits = true ↔ m.hits < b)) ∧
    (∀ a, m.expected_hits_at_least = some a → m.expected_hits_at_most = none →
      (m.is_missing_hits = true ↔ m.hits < a)) ∧
    (∀ b, m.expected_hits_at_least = none → m.expected_hits_at_most = some b →
      (m.is_missing_hits = true ↔ m.hits < b)) ∧
    (m.expected_hits_at_least = none → m.expected_hits_at_most = none →
      (m.is_missing_hits = true ↔ m.hits < 1)) ∧
    (∀ a a' b,
      ({ m with expected_hits_at_least := some a, expected_hits_at_most := some b } : Mock).is_missing_hits =
      ({ m with expected_hits_at_least := some a', expected_hits_at_most := some b } : Mock).is_missing_hits) := by
  refine ⟨?_, ?_, ?_, ?_, ?_⟩ <;> intros <;> simp_all [Mock.is_missing_hits]

/-- Witness for C2 at a concrete mock with both bounds set. -/
theorem is_missing_hits_spec_witness :
    wMockBoth.is_missing_hits = true ↔ wMockBoth.hits < 2 :=
  (is_missing_hits_spec wMockBoth).1 5 2 rfl rfl

/-- C3: a mock matches a request iff the methods are equal, the path
matcher accepts the path, every registered header matcher accepts the
value set found under its name, and the body matcher accepts the lossily
decoded text or the raw bytes. -/
theorem mock_eq_spec (lossy : List Nat → String) (m : Mock) (r : Request) :
    Mock.eq lossy m r = true ↔
      (m.method = r.method ∧
       m.path.matches_value r.path = true ∧
       (∀ fe ∈ m.headers,
         fe.snd.matches_values (r.find_header_values fe.fst) = true) ∧
       (m.body.matches_value (lossy r.body) = true ∨
        m.body.matches_binary_value r.body = true)) := by
  simp [Mock.eq, Mock.method_matches, Mock.path_matches, Mock.headers_match,
    Mock.body_matches, List.all_eq_true, and_assoc]

theorem getD_eq_getElem (l : List Mock) (i : Nat) (h : i < l.length) :
    l.getD i default = l[i] := by
  simp [List.getD_eq_getElem?_getD, List.getElem?_eq_getElem h]

theorem mem_matching_idxs (lossy : List Nat → String) (mocks : List Mock) (r : Request)
    (i : Nat) (h : i ∈ matching_idxs lossy mocks r) :
    i < mocks.length ∧ Mock.eq lossy (mocks.getD i default) r = true := by
  rcases List.mem_filter.mp h with ⟨hmem, hp⟩
  exact ⟨List.mem_range.mp hmem, hp⟩

theorem selected_idx_mem (lossy : List Nat → String) (mocks : List Mock) (r : Request)
    (i : Nat) (h : selected_idx lossy mocks r = some i) :
    i ∈ matching_idxs lossy mocks r := by
  unfold selected_idx at h
  rcases hfind : (matching_idxs lossy mocks r).find?
      (fun i => (mocks.getD i default).is_missing_hits) with _ | j
  · rw [hfind] at h
    rcases hlast : (matching_idxs lossy mocks r).getLast? with _ | j
    · rw [hlast] at h; exact absurd h (by simp)
    · rw [hlast] at h
      cases h
      have hne : matching_idxs lossy mocks r ≠ [] := by
        intro hnil; rw [hnil] at hlast; exact absurd hlast (by simp)
      have := List.getLast?_eq_getLast _ hne
      rw [this] at hlast
      cases hlast
      exact List.getLast_mem hne
  · rw [hfind] at h
    cases h
    exact List.mem_of_find?_eq_some hfind

/-- C1: among the matching mocks, in registration order, the selected one
is the first that is missing hits; if no matching mock is missing hits,
the last matching mock is selected; if at least one mock matches, some
mock is selected. -/
theorem mock_selection_policy (lossy : List Nat → String) (mocks : List Mock) (r : Request) :
    (∀ k (hk : k < (matching_idxs lossy mocks r).length),
      (mocks.getD ((matching_idxs lossy mocks r).get ⟨k, hk⟩) default).is_missing_hits = true →
      (∀ j (hj : j < k),
        (mocks.getD ((matching_idxs lossy mocks r).get ⟨j, Nat.lt_trans hj hk⟩) default).is_missing_hits = false) →
      selected_idx lossy mocks r = some ((matching_idxs lossy mocks r).get ⟨k, hk⟩)) ∧
    ((∀ i ∈ matching_idxs lossy mocks r, (mocks.getD i default).is_missing_hits = false) →
      selected_idx lossy mocks r = (matching_idxs lossy mocks r).getLast?) ∧
    (matching_idxs lossy mocks r ≠ [] →
      ∃ i, selected_idx lossy mocks r = some i ∧ i ∈ matching_idxs lossy mocks r) := by
  refine ⟨?_, ?_, ?_⟩
  · intro k hk hmiss hbefore
    have hfind := find?_eq_get_of_first
      (fun i => (mocks.getD i default).is_missing_hits)
      (matching_idxs lossy mocks r) k hk hmiss hbefore
    unfold selected_idx
    rw [hfind]
  · intro hall
    have hfind : (matching_idxs lossy mocks r).find?
        (fun i => (mocks.getD i default).is_missing_hits) = none := by
      rw [List.find?_eq_none]
      intro i hi
      simp only [Bool.not_eq_true]
      exact hall i hi
    unfold selected_idx
    rw [hfind]
  · intro hne
    rcases hfind : (matching_idxs lossy mocks r).find?
        (fun i => (mocks.getD i default).is_missing_hits) with _ | j
    · refine ⟨(matching_idxs lossy mocks r).getLast hne, ?_, List.getLast_mem hne⟩
      unfold selected_idx
      rw [hfind, List.getLast?_eq_getLast _ hne]
    · refine ⟨j, ?_, List.mem_of_find?_eq_some hfind⟩
      unfold selected_idx
      rw [hfind]

/-- Lossy decoder used in concrete witnesses (its value is irrelevant to
the witnessed facts). -/
def wLossy : List Nat → String :=
  fun _ => ""

/-- Matcher that accepts anything, for witnesses. -/
def anyMatcher : Matcher :=
  ⟨fun _ => true, fun _ => true, fun _ => true⟩

/-- Concrete all-accepting GET mock, zero hits, no bounds (so it is
missing hits). -/
def wMockA : Mock :=
  { method := "GET"
    path := anyMatcher
    headers := []
    body := anyMatcher
    response := { status := "200 OK", headers := [("x-served-by", "A")], body := Body.Bytes [104, 105] }
    hits := 0
    expected_hits_at_least := none
    expected_hits_at_most := none }

/-- Concrete all-accepting GET mock, like `wMockA` but already hit once
(so it is no longer missing hits). -/
def wMockB : Mock :=
  { wMockA with
      hits := 1
      response := { status := "200 OK", headers := [("x-served-by", "B")], body := Body.Bytes [106] } }

/-- Concrete GET request. -/
def wReq : Request :=
  { method := "GET"
    path := "/hello"
    headers := [("accept", "*")]
    body := []
    version := (1, 1) }

/-- Witness for C1: with an exhausted matching mock registered first and
a fresh one second, the fresh (first missing-hits) one is selected. -/
theorem mock_selection_policy_witness :
    selected_idx wLossy [wMockB, wMockA] wReq =
      some ((matching_idxs wLossy [wMockB, wMockA] wReq).get ⟨1, by decide⟩) :=
  (mock_selection_policy wLossy [wMockB, wMockA] wReq).1 1 (by decide) (by decide)
    (by decide)

/-- C8: `find_server`, over the availability snapshot of the pool's slot
locks, returns the lowest-index slot whose non-blocking acquire succeeds;
when every try-lock fails it returns slot 0 (acquired blockingly); it
always returns a slot. -/
theorem find_server_spec (avail : List Bool) :
    (∀ i (hi : i < avail.length), avail.get ⟨i, hi⟩ = true →
      (∀ j (hj : j < i), avail.get ⟨j, Nat.lt_trans hj hi⟩ = false) →
      find_server avail = i) ∧
    ((∀ b ∈ avail, b = false) → find_server avail = 0) ∧
    (avail ≠ [] → find_server avail < avail.length) := by
  refine ⟨?_, ?_, ?_⟩
  · intro i hi htrue hbefore
    have hlen : i < (List.range avail.length).length := by simpa using hi
    have hget : (List.range avail.length).get ⟨i, hlen⟩ = i := by simp
    have hfind := find?_eq_get_of_first (fun i => avail.getD i false)
      (List.range avail.length) i hlen ?_ ?_
    · rw [hget] at hfind
      unfold find_server
      rw [hfind]
    · rw [hget]
      show avail.getD i false = true
      rw [List.getD_eq_getElem?_getD, List.getElem?_eq_getElem hi, Option.getD_some]
      simpa using htrue
    · intro j hj
      have hjget : (List.range avail.length).get ⟨j, Nat.lt_trans hj hlen⟩ = j := by simp
      rw [hjget]
      have hjlt : j < avail.length := Nat.lt_trans hj hi
      show avail.getD j false = false
      rw [List.getD_eq_getElem?_getD, List.getElem?_eq_getElem hjlt, Option.getD_some]
      simpa using hbefore j hj
  · intro hall
    have hfind : (List.range avail.length).find? (fun i => avail.getD i false) = none := by
      rw [List.find?_eq_none]
      intro i hi
      have hlt : i < avail.length := List.mem_range.mp hi
      simp only [Bool.not_eq_true]
      rw [List.getD_eq_getElem?_getD, List.getElem?_eq_getElem hlt, Option.getD_some]
      exact hall _ (List.getElem_mem hlt)
    unfold find_server
    rw [hfind]
  · intro hne
    rcases hfind : (List.range avail.length).find? (fun i => avail.getD i false) with _ | j
    · unfold find_server
      rw [hfind]
      exact List.length_pos.mpr hne
    · have hlt := List.mem_range.mp (List.mem_of_find?_eq_some hfind)
      unfold find_server
      rw [hfind]
      exact hlt

/-- Witness for C8: slots 0 and 1 contended, slot 2 free: the scan
returns slot 2. -/
theorem find_server_spec_witness : find_server [false, false, true] = 2 :=
  (find_server_spec [false, false, true]).1 2 (by decide) (by decide) (by decide)

theorem respond_bytes_synthesizes_cl (version : Nat × Nat) (status : String)
    (hs : List (String × String)) (bytes : List Nat)
    (h : ∀ kv ∈ hs, kv.fst ≠ "content-length") :
    respond_bytes version status (some hs) (some (Body.Bytes bytes)) =
      strBytes (status_line version status) ++ header_lines hs ++
      strBytes ("content-length: " ++ toString bytes.length ++ "\r\n") ++
      strBytes "\r\n" ++ bytes := by
  have hany : hs.any (fun kv => kv.fst == "content-length") = false := by
    rw [List.any_eq_false]
    intro kv hkv
    simp [h kv hkv]
  simp [respond_bytes, hany, List.append_assoc]

theorem respond_bytes_keeps_cl (version : Nat × Nat) (status : String)
    (hs : List (String × String)) (bytes : List Nat)
    (h : ∃ kv ∈ hs, kv.fst = "content-length") :
    respond_bytes version status (some hs) (some (Body.Bytes bytes)) =
      strBytes (status_line version status) ++ header_lines hs ++
      strBytes "\r\n" ++ bytes := by
  rcases h with ⟨kv, hkv, hname⟩
  have hany : hs.any (fun kv => kv.fst == "content-length") = true := by
    rw [List.any_eq_true]
    exact ⟨kv, hkv, by simp [hname]⟩
  simp [respond_bytes, hany, List.append_assoc]

/-- C4: for a fixed-buffer body, when the supplied header list holds no
header named `content-length` the writer appends a synthesized
`content-length` header whose value is the exact byte length of the
buffer; when it holds one, nothing is synthesized and the supplied
headers are emitted unchanged. -/
theorem content_length_synthesis (version : Nat × Nat) (status : String)
    (hs : List (String × String)) (bytes : List Nat) :
    ((∀ kv ∈ hs, kv.fst ≠ "content-length") →
      respond_bytes version status (some hs) (some (Body.Bytes bytes)) =
        strBytes (status_line version status) ++ header_lines hs ++
        strBytes ("content-length: " ++ toString bytes.length ++ "\r\n") ++
        strBytes "\r\n" ++ bytes) ∧
    ((∃ kv ∈ hs, kv.fst = "content-length") →
      respond_bytes version status (some hs) (some (Body.Bytes bytes)) =
        strBytes (status_line version status) ++ header_lines hs ++
        strBytes "\r\n" ++ bytes) :=
  ⟨respond_bytes_synthesizes_cl version status hs bytes,
   respond_bytes_keeps_cl version status hs bytes⟩

/-- Witness for C4: no `content-length` supplied, so one is synthesized
with the body's byte count. -/
theorem content_length_synthesis_witness :
    respond_bytes (1, 1) "200 OK" (some [("x-foo", "bar")]) (some (Body.Bytes [104, 105])) =
      strBytes (status_line (1, 1) "200 OK") ++ header_lines [("x-foo", "bar")] ++
      strBytes ("content-length: " ++ toString ([104, 105] : List Nat).length ++ "\r\n") ++
      strBytes "\r\n" ++ [104, 105] :=
  (content_length_synthesis (1, 1) "200 OK" [("x-foo", "bar")] [104, 105]).1 (by decide)

/-- C10: the supplied-header check compares names to `content-length`
case-sensitively; a list whose only length header is spelled
`Content-Length` does not suppress synthesis, so the serialized response
carries the supplied line (inside the header block) and the synthesized
lowercase one. -/
theorem content_length_check_case_sensitive (version : Nat × Nat) (status : String)
    (hs : List (String × String)) (bytes : List Nat) (v : String)
    (hmem : ("Content-Length", v) ∈ hs)
    (hnone : ∀ kv ∈ hs, kv.fst ≠ "content-length") :
    respond_bytes version status (some hs) (some (Body.Bytes bytes)) =
      strBytes (status_line version status) ++ header_lines hs ++
      strBytes ("content-length: " ++ toString bytes.length ++ "\r\n") ++
      strBytes "\r\n" ++ bytes ∧
    ∃ pre post, header_lines hs =
      pre ++ (strBytes "Content-Length" ++ strBytes ": " ++ strBytes v ++ strBytes "\r\n") ++ post := by
  constructor
  · exact respond_bytes_synthesizes_cl version status hs bytes hnone
  · rcases List.append_of_mem hmem with ⟨s, t, hst⟩
    refine ⟨header_lines s, header_lines t, ?_⟩
    rw [hst]
    simp [header_lines, List.append_assoc]

/-- Witness for C10: a `Content-Length` header under the capitalized
spelling is kept and a lowercase `content-length` is synthesized
alongside it. -/
theorem content_length_check_case_sensitive_witness :
    respond_bytes (1, 1) "200 OK" (some [("Content-Length", "2")]) (some (Body.Bytes [1, 2])) =
      strBytes (status_line (1, 1) "200 OK") ++ header_lines [("Content-Length", "2")] ++
      strBytes ("content-length: " ++ toString ([1, 2] : List Nat).length ++ "\r\n") ++
      strBytes "\r\n" ++ [1, 2] ∧
    ∃ pre post, header_lines [("Content-Length", "2")] =
      pre ++ (strBytes "Content-Length" ++ strBytes ": " ++ strBytes "2" ++ strBytes "\r\n") ++ post :=
  content_length_check_case_sensitive (1, 1) "200 OK" [("Content-Length", "2")] [1, 2] "2"
    (by decide) (by decide)

/-- C5: a callback (`Fn`) body is sent with a
`transfer-encoding: chunked` header and no synthesized `content-length`;
each chunk is framed as its hex length, CRLF, the data, CRLF; and the
terminating zero-length chunk `0\r\n\r\n` closes the stream. -/
theorem chunked_response (version : Nat × Nat) (status : String)
    (hs : List (String × String)) (chunks : List (List Nat)) :
    respond_bytes version status (some hs) (some (Body.Fn chunks)) =
      strBytes (status_line version status) ++ header_lines hs ++
      strBytes "transfer-encoding: chunked\r\n" ++ strBytes "\r\n" ++
      ((chunks.map (fun c =>
        strBytes (hexStr c.length) ++ strBytes "\r\n" ++ c ++ strBytes "\r\n")).flatten ++
       strBytes "0\r\n\r\n") := by
  have hmap : chunks.map (fun c =>
      strBytes (hexStr c.length) ++ strBytes "\r\n" ++ c ++ strBytes "\r\n") =
      chunks.map Chunked.frame := rfl
  rw [hmap]
  simp [respond_bytes, Chunked.encode, List.append_assoc]

/-- C9: a connection whose request fails to parse gets a `422 Mock Error`
response whose body is the diagnostic message (or the fixed fallback when
none), with no headers beyond a `content-length` synthesized from the
message's byte length. -/
theorem parse_failure_response (version : Nat × Nat) (err : Option String) :
    handle_parse_failure version err =
      strBytes ("HTTP/" ++ toString version.fst ++ "." ++ toString version.snd ++
        " 422 Mock Error\r\ncontent-length: " ++
        toString (strBytes (err.getD "Could not parse the request.")).length ++
        "\r\n\r\n") ++
      strBytes (err.getD "Could not parse the request.") := by
  have key1 : (" 422 Mock Error\r\ncontent-length: " : String) =
      " " ++ "422 Mock Error" ++ "\r\n" ++ "content-length: " := rfl
  have key2 : ("\r\n\r\n" : String) = "\r\n" ++ "\r\n" := rfl
  cases err with
  | none =>
    rw [key1, key2]
    simp only [handle_parse_failure, Option.getD_none, respond_with_error, respond,
      Option.map_some', respond_bytes, status_line, strBytes_append,
      Bool.false_eq_true, if_false, List.append_assoc]
  | some e =>
    rw [key1, key2]
    simp only [handle_parse_failure, Option.getD_some, respond_with_error, respond,
      Option.map_some', respond_bytes, status_line, strBytes_append,
      Bool.false_eq_true, if_false, List.append_assoc]

/-- C6: a request matching no registered mock is appended to the
unmatched-request log (which otherwise keeps its entries, and the mock
list is untouched), and the client receives exactly the fixed 501
response with the version echoed from the request. -/
theorem unmatched_request_handling (lossy : List Nat → String) (s : Server) (r : Request)
    (h : ∀ m ∈ s.mocks, Mock.eq lossy m r = false) :
    (handle_request lossy s r).fst.unmatched_requests = s.unmatched_requests ++ [r] ∧
    (handle_request lossy s r).fst.mocks = s.mocks ∧
    (handle_request lossy s r).snd =
      strBytes ("HTTP/" ++ toString r.version.fst ++ "." ++ toString r.version.snd ++
        " 501 Mock Not Found\r\ncontent-length: 0\r\n\r\n") := by
  have hmatch : matching_idxs lossy s.mocks r = [] := by
    unfold matching_idxs
    rw [List.filter_eq_nil_iff]
    intro i hi
    have hlt := List.mem_range.mp hi
    simp only [Bool.not_eq_true]
    rw [getD_eq_getElem _ _ hlt]
    exact h _ (List.getElem_mem hlt)
  have hsel : selected_idx lossy s.mocks r = none := by
    unfold selected_idx
    rw [hmatch]
    rfl
  have hhr : handle_request lossy s r =
      ({ s with unmatched_requests := s.unmatched_requests ++ [r] },
       respond_with_mock_not_found r.version) := by
    unfold handle_request
    rw [hsel]
  rw [hhr]
  refine ⟨rfl, rfl, ?_⟩
  have key1 : (" 501 Mock Not Found\r\ncontent-length: 0\r\n\r\n" : String) =
      " " ++ "501 Mock Not Found" ++ "\r\n" ++ "content-length" ++ ": " ++ "0" ++
      "\r\n" ++ "\r\n" := rfl
  rw [key1]
  simp only [respond_with_mock_not_found, respond, Option.map_none', respond_bytes,
    status_line, header_lines, List.map_cons, List.map_nil, List.flatten_cons,
    List.flatten_nil, List.append_nil, strBytes_append, List.append_assoc]

/-- Mock that cannot match `wReq` (method differs), for the C6 witness. -/
def wMockNo : Mock :=
  { wMockA with method := "POST" }

/-- Witness for C6: a GET request against a server holding only a POST
mock lands in the unmatched log and gets the fixed 501 bytes. -/
theorem unmatched_request_handling_witness :
    (handle_request wLossy ⟨[wMockNo], []⟩ wReq).fst.unmatched_requests = [] ++ [wReq] ∧
    (handle_request wLossy ⟨[wMockNo], []⟩ wReq).fst.mocks = [wMockNo] ∧
    (handle_request wLossy ⟨[wMockNo], []⟩ wReq).snd =
      strBytes ("HTTP/" ++ toString wReq.version.fst ++ "." ++ toString wReq.version.snd ++
        " 501 Mock Not Found\r\ncontent-length: 0\r\n\r\n") :=
  unmatched_request_handling wLossy ⟨[wMockNo], []⟩ wReq (by decide)

/-- C7: when some mock matches, the selected mock's hit counter is
incremented by exactly one (all other mocks unchanged, the unmatched log
unchanged), the response carries that mock's status and headers, and the
body is put on the wire exactly when the request is not HEAD: for HEAD
the bytes end right after the header block. -/
theorem matched_request_handling (lossy : List Nat → String) (s : Server) (r : Request)
    (i : Nat) (h : selected_idx lossy s.mocks r = some i) :
    i < s.mocks.length ∧
    (handle_request lossy s r).fst.mocks =
      s.mocks.set i
        { s.mocks.getD i default with hits := (s.mocks.getD i default).hits + 1 } ∧
    (handle_request lossy s r).fst.unmatched_requests = s.unmatched_requests ∧
    (handle_request lossy s r).snd =
      respond_bytes r.version (s.mocks.getD i default).response.status
        (some (s.mocks.getD i default).response.headers)
        (if r.is_head then none else some (s.mocks.getD i default).response.body) ∧
    (r.is_head = true →
      (handle_request lossy s r).snd =
        strBytes (status_line r.version (s.mocks.getD i default).response.status) ++
        header_lines (s.mocks.getD i default).response.headers ++ strBytes "\r\n") := by
  have hmem := selected_idx_mem lossy s.mocks r i h
  have hlt : i < s.mocks.length := (mem_matching_idxs lossy s.mocks r i hmem).1
  have hhr : handle_request lossy s r =
      ({ s with mocks := s.mocks.set i { s.mocks.getD i default with hits := (s.mocks.getD i default).hits + 1 } },
       respond_with_mock r.version { s.mocks.getD i default with hits := (s.mocks.getD i default).hits + 1 } r.is_head) := by
    unfold handle_request
    rw [h]
  refine ⟨hlt, ?_, ?_, ?_, ?_⟩
  · rw [hhr]
  · rw [hhr]
  · rw [hhr]
    rfl
  · intro hhead
    rw [hhr]
    show respond_with_mock r.version
      { s.mocks.getD i default with hits := (s.mocks.getD i default).hits + 1 }
      r.is_head = _
    rw [hhead]
    simp [respond_with_mock, respond_bytes, List.append_assoc]

/-- Witness for C7: a matching mock at index 0 with zero hits gets its
counter set to one. -/
theorem matched_request_handling_witness :
    (0 : Nat) < ([wMockA] : List Mock).length ∧
    (handle_request wLossy ⟨[wMockA], []⟩ wReq).fst.mocks =
      [wMockA].set 0
        { [wMockA].getD 0 default with hits := ([wMockA].getD 0 default).hits + 1 } :=
  ⟨(matched_request_handling wLossy ⟨[wMockA], []⟩ wReq 0 (by decide)).1,
   (matched_request_handling wLossy ⟨[wMockA], []⟩ wReq 0 (by decide)).2.1⟩
